import Mathlib

/-!
Shallow embedding of the fallback-driven execution pipeline of the
autopromptx repository: the output validator (utils/output_validator.py),
the degradation generator (utils/dummy_generator.py), the agent state and
backend selection (agents/base_agent.py, agents/summarizer_agent.py,
agents/code_revieweragent.py), the fallback orchestrator
(models/fallback_manager.py), and the chain planner
(planner/chain_planner.py).

Python strings are modelled as Lean strings; string helpers (strip, lower,
substring containment, split) are modelled over the underlying character
lists. The opaque inference capability of a loaded pipeline is modelled as
a function from input text to `Except String String` (error = the call
raised). The fallback configuration JSON (module config.agent_fallbacks,
supplied by the external configuration collaborator) is modelled as an
association list passed as a parameter.
-/

namespace AutoPromptX

/-- ASCII whitespace as stripped by Python str.strip(). -/
def pyIsSpace (c : Char) : Bool :=
  c = ' ' || c = '\t' || c = '\n' || c = '\r' || c = '\x0b' || c = '\x0c'

/-- Python output.strip(): drop leading and trailing whitespace characters. -/
def pyStrip (l : List Char) : List Char :=
  ((l.dropWhile pyIsSpace).reverse.dropWhile pyIsSpace).reverse

/-- Python output.lower(): lowercase each character. -/
def pyLower (l : List Char) : List Char :=
  l.map Char.toLower

/-- utils/output_validator.py, is_valid_output:
    rejects empty or too-short (stripped length below 20) output, and
    output whose lowercase form contains "error" or "failed". -/
def is_valid_output (output : String) : Bool :=
  if output.data = [] ∨ (pyStrip output.data).length < 20 then false
  else if ("error".data <:+: pyLower output.data) ∨ ("failed".data <:+: pyLower output.data) then false
  else true

/-- utils/dummy_generator.py, the fallback_messages dict. -/
def fallback_messages : List (String × String) :=
  [("SummarizerAgent", "Summary unavailable. Please review the original text."),
   ("CodeReviewerAgent", "No critical issues detected. Consider edge cases."),
   ("PersonaAgent", "Could not adjust tone. Original text retained."),
   ("FollowUpAgent", "Unable to generate next steps. Please try again."),
   ("ClarityAgent", "Clarity score unavailable. Text may need manual review.")]

/-- utils/dummy_generator.py, generate_dummy_output:
    fallback_messages.get(agent_name, "No output available."). The input
    text parameter is accepted and ignored, as in the source. -/
def generate_dummy_output (agent_name : String) (input_text : String) : String :=
  ((fallback_messages.find? (fun p => p.1 == agent_name)).map Prod.snd).getD "No output available."

/-- One loaded inference capability (a transformers pipeline object):
    given the text passed to the pipeline call, either returns the text
    extracted from its result, or fails (the call raised). -/
def Capability : Type := String → Except String String

/-- The mutable state of a BaseAgent instance (agents/base_agent.py):
    the class name (used as the fallback-table key), the model_name field
    (Optional[str]), and the model field holding the pipeline loaded at
    construction time, or none when loading failed. -/
structure AgentState where
  name : String
  model_name : Option String
  model : Option Capability

/-- agents/base_agent.py, BaseAgent.set_model: assigns self.model_name. -/
def set_model (st : AgentState) (model_name : String) : AgentState :=
  { st with model_name := some model_name }

/-- agents/summarizer_agent.py, SummarizerAgent.run: returns "" when no
    model is loaded, otherwise calls the pipeline on the input text and
    returns its summary text, or "" when the call raises. -/
def summarizer_run (st : AgentState) (input_text : String) : String :=
  match st.model with
  | none => ""
  | some m =>
    match m input_text with
    | Except.ok r => r
    | Except.error _ => ""

/-- agents/code_revieweragent.py: the prompt framing applied by
    CodeReviewerAgent.run before invoking the pipeline. -/
def code_reviewer_prompt (input_text : String) : String :=
  "Review this code and suggest improvements:\n" ++ input_text

/-- agents/code_revieweragent.py, CodeReviewerAgent.run: returns "" when no
    model is loaded, otherwise calls the pipeline on the framed prompt and
    returns its generated text, or "" when the call raises. -/
def code_reviewer_run (st : AgentState) (input_text : String) : String :=
  match st.model with
  | none => ""
  | some m =>
    match m (code_reviewer_prompt input_text) with
    | Except.ok r => r
    | Except.error _ => ""

/-- Python fallback_map.get(name, []) over the decoded JSON object,
    modelled as an association list. -/
def pyDictGetList (m : List (String × List String)) (k : String) : List String :=
  ((m.find? (fun p => p.1 == k)).map Prod.snd).getD []

/-- The loop body of models/fallback_manager.py, run_with_fallback:
    for each candidate model name in order, set_model then run; return the
    first output passing is_valid_output. The agent state is threaded
    explicitly (set_model mutates the agent), `runF` is the abstract
    BaseAgent.run of the agent instance. Returns the accepted output (none
    when every candidate was rejected) paired with the list of candidate
    model names invoked, in invocation order. -/
def fallback_loop (runF : AgentState → String → String) (st : AgentState)
    (input_text : String) : List String → Option String × List String
  | [] => (none, [])
  | m :: ms =>
    let st1 := set_model st m
    let output := runF st1 input_text
    if is_valid_output output then (some output, [m])
    else
      let r := fallback_loop runF st1 input_text ms
      (r.1, m :: r.2)

/-- models/fallback_manager.py, run_with_fallback: try each candidate from
    the fallback table entry for the agent class name; when none is
    accepted, return generate_dummy_output. -/
def run_with_fallback (runF : AgentState → String → String)
    (fallback_map : List (String × List String)) (st : AgentState)
    (input_text : String) : String :=
  match (fallback_loop runF st input_text (pyDictGetList fallback_map st.name)).1 with
  | some o => o
  | none => generate_dummy_output st.name input_text

/-- The sequence of candidate model names invoked (passed to set_model and
    run) by one run_with_fallback call, in order. -/
def run_with_fallback_trace (runF : AgentState → String → String)
    (fallback_map : List (String × List String)) (st : AgentState)
    (input_text : String) : List String :=
  (fallback_loop runF st input_text (pyDictGetList fallback_map st.name)).2

/-- Python s.split(sep) for a non-empty separator, on character lists:
    scan left to right, cut at each non-overlapping occurrence of sep,
    keeping empty pieces. Fuel-based recursion; fuel = length of the
    scanned list suffices since every step consumes at least one
    character. -/
def pySplitAux (sep : List Char) : Nat → List Char → List Char → List (List Char)
  | 0, l, cur => [cur.reverse ++ l]
  | fuel + 1, l, cur =>
    match l with
    | [] => [cur.reverse]
    | c :: rest =>
      if l.take sep.length = sep then
        cur.reverse :: pySplitAux sep fuel (l.drop sep.length) []
      else
        pySplitAux sep fuel rest (c :: cur)

/-- Python raw_output.split(", ") as used by the chain planner. -/
def py_split_comma_space (s : String) : List String :=
  (pySplitAux ", ".data (s.data.length + 1) s.data []).map String.mk

/-- The dict returned by planner/chain_planner.py, suggest_chain: either
    an error payload, or the goal, the suggested chain and the raw model
    output. -/
inductive PlanResult where
  | err : String → PlanResult
  | ok : String → List String → String → PlanResult
deriving DecidableEq

/-- planner/chain_planner.py, ChainPlanner state: the planner pipeline
    loaded at construction, or none when loading failed. -/
structure ChainPlanner where
  model : Option Capability

/-- The instruction prompt built by suggest_chain around the goal. -/
def planner_prompt (goal : String) : String :=
  "Given the goal: \x27" ++ goal ++ "\x27, suggest a sequence of agents from [SummarizerAgent, CodeReviewerAgent, PersonaAgent, FollowUpAgent, ClarityAgent] to achieve it."

/-- planner/chain_planner.py, ChainPlanner.suggest_chain: error payload
    when the model is not loaded or the invocation raises; otherwise the
    goal, the raw output split on ", ", and the raw output. -/
def suggest_chain (p : ChainPlanner) (goal : String) : PlanResult :=
  match p.model with
  | none => PlanResult.err "Planner model not loaded."
  | some m =>
    match m (planner_prompt goal) with
    | Except.ok raw_output => PlanResult.ok goal (py_split_comma_space raw_output) raw_output
    | Except.error e => PlanResult.err e

/-! Concrete instances used by witness and counterexample theorems. -/

/-- A run function accepting only the first configured backend name. -/
def w1Run : AgentState → String → String := fun st _ =>
  if st.model_name == some "t5-small" then "This is a sufficiently long valid summary output." else ""

def w1Map : List (String × List String) := [("SummarizerAgent", ["t5-small", "flan-t5-base"])]

def w1St : AgentState := ⟨"SummarizerAgent", none, none⟩

/-- A run function whose output always fails validation. -/
def w2Run : AgentState → String → String := fun _ _ => "error"

def w2Map : List (String × List String) := [("UnknownAgent", ["m1", "m2"])]

def w2St : AgentState := ⟨"UnknownAgent", none, none⟩

/-- A capability standing for the pipeline loaded by SummarizerAgent at
    construction from its initial model_name. -/
def capA : Capability := fun s => Except.ok ("SUMMARY-A:" ++ s)

def c3St : AgentState := ⟨"SummarizerAgent", some "t5-small", some capA⟩

/-- An agent whose pipeline failed to load (self.model is None). -/
def unboundSt : AgentState := ⟨"SummarizerAgent", some "t5-small", none⟩

/-- A capability whose every invocation raises. -/
def failCap : Capability := fun _ => Except.error "boom"

def w6St : AgentState := ⟨"SummarizerAgent", some "t5-small", some failCap⟩

/-- A run function whose output always fails validation. -/
def w8Run : AgentState → String → String := fun _ _ => ""

def w8Map : List (String × List String) := [("PersonaAgent", ["flan-t5-base", "t5-v1_1-base"])]

def w8St : AgentState := ⟨"PersonaAgent", none, none⟩

def w8dRun : AgentState → String → String := fun _ _ => ""

/-- A fallback table whose entry lists the same backend twice. -/
def w8dMap : List (String × List String) := [("SummarizerAgent", ["t5-small", "t5-small"])]

def w8dSt : AgentState := ⟨"SummarizerAgent", none, none⟩

/-- A planner capability returning a fixed two-agent chain. -/
def planCap : Capability := fun _ => Except.ok "SummarizerAgent, FollowUpAgent"

def w9P : ChainPlanner := ⟨some planCap⟩

/-! Helper lemmas about the fallback loop. -/

/-- set_model only overwrites model_name, so two selections in a row keep
    only the second. -/
theorem set_model_set_model (st : AgentState) (a b : String) :
    set_model (set_model st a) b = set_model st b := rfl

/-- When every candidate in the list is rejected by the validator, the
    fallback loop accepts nothing and invokes every candidate in order. -/
theorem fallback_loop_all_invalid (runF : AgentState → String → String)
    (input_text : String) :
    ∀ (l : List String) (st : AgentState),
      (∀ m ∈ l, is_valid_output (runF (set_model st m) input_text) = false) →
      fallback_loop runF st input_text l = (none, l) := by
  intro l
  induction l with
  | nil => intro st _; rfl
  | cons m ms ih =>
    intro st h
    have hm : is_valid_output (runF (set_model st m) input_text) = false := h m (by simp)
    have hrest : fallback_loop runF (set_model st m) input_text ms = (none, ms) := by
      apply ih
      intro m2 hm2
      have he : set_model (set_model st m) m2 = set_model st m2 := rfl
      rw [he]
      exact h m2 (by simp [hm2])
    simp [fallback_loop, hm, hrest]

/-- The fallback loop returns either a validated output of some candidate
    in the list, or nothing. -/
theorem fallback_loop_spec (runF : AgentState → String → String)
    (input_text : String) :
    ∀ (l : List String) (st : AgentState),
      (∃ m ∈ l, (fallback_loop runF st input_text l).1 = some (runF (set_model st m) input_text) ∧
        is_valid_output (runF (set_model st m) input_text) = true) ∨
      (fallback_loop runF st input_text l).1 = none := by
  intro l
  induction l with
  | nil => intro st; right; rfl
  | cons m ms ih =>
    intro st
    by_cases hv : is_valid_output (runF (set_model st m) input_text) = true
    · left
      exact ⟨m, by simp, by simp [fallback_loop, hv], hv⟩
    · have hv2 : is_valid_output (runF (set_model st m) input_text) = false := by
        simpa using hv
      have hstep : (fallback_loop runF st input_text (m :: ms)).1 =
          (fallback_loop runF (set_model st m) input_text ms).1 := by
        simp [fallback_loop, hv2]
      rcases ih (set_model st m) with ⟨m2, hm2, heq, hval⟩ | hnone
      · left
        have he : set_model (set_model st m) m2 = set_model st m2 := rfl
        rw [he] at heq hval
        exact ⟨m2, by simp [hm2], by rw [hstep]; exact heq, hval⟩
      · right
        rw [hstep, hnone]

/-- The invocation trace of the fallback loop is a prefix of the candidate
    list. -/
theorem fallback_loop_trace_pf (runF : AgentState → String → String)
    (input_text : String) :
    ∀ (l : List String) (st : AgentState),
      (fallback_loop runF st input_text l).2 <+: l := by
  intro l
  induction l with
  | nil => intro st; exact ⟨[], rfl⟩
  | cons m ms ih =>
    intro st
    by_cases hv : is_valid_output (runF (set_model st m) input_text) = true
    · refine ⟨ms, ?_⟩
      simp [fallback_loop, hv]
    · have hv2 : is_valid_output (runF (set_model st m) input_text) = false := by
        simpa using hv
      obtain ⟨u, hu⟩ := ih (set_model st m)
      refine ⟨u, ?_⟩
      have hstep : (fallback_loop runF st input_text (m :: ms)).2 =
          m :: (fallback_loop runF (set_model st m) input_text ms).2 := by
        simp [fallback_loop, hv2]
      rw [hstep, List.cons_append, hu]

/-! Claim theorems. -/

/-- Claim C1: for every agent type with a non-empty fallback-table entry
    and every input text, if the output produced by the first candidate
    backend passes the output validator, then run_with_fallback returns
    exactly that output and invokes no further candidates (the invocation
    trace is exactly the first candidate). -/
theorem claim_C1_first_candidate_wins (runF : AgentState → String → String)
    (fallback_map : List (String × List String)) (st : AgentState)
    (input_text c : String) (cs : List String)
    (hmap : pyDictGetList fallback_map st.name = c :: cs)
    (hval : is_valid_output (runF (set_model st c) input_text) = true) :
    run_with_fallback runF fallback_map st input_text = runF (set_model st c) input_text ∧
    run_with_fallback_trace runF fallback_map st input_text = [c] := by
  unfold run_with_fallback run_with_fallback_trace
  rw [hmap]
  simp [fallback_loop, hval]

/-- Witness for claim C1 at a concrete table, agent state and run
    function. -/
theorem claim_C1_witness :
    run_with_fallback w1Run w1Map w1St "input" = w1Run (set_model w1St "t5-small") "input" ∧
    run_with_fallback_trace w1Run w1Map w1St "input" = ["t5-small"] :=
  claim_C1_first_candidate_wins w1Run w1Map w1St "input" "t5-small" ["flan-t5-base"]
    (by decide) (by decide)

/-- Claim C2: when every candidate output fails the validator (which in
    particular holds when every invocation yields the empty string, since
    the empty string is invalid, and holds vacuously when the agent type
    has no or an empty table entry), run_with_fallback returns exactly the
    degradation generator string for the agent class name, and the generic
    string when the generator does not recognize the name. -/
theorem claim_C2_exhaustion_degrades (runF : AgentState → String → String)
    (fallback_map : List (String × List String)) (st : AgentState)
    (input_text : String)
    (h : ∀ m ∈ pyDictGetList fallback_map st.name,
        is_valid_output (runF (set_model st m) input_text) = false) :
    run_with_fallback runF fallback_map st input_text = generate_dummy_output st.name input_text ∧
    is_valid_output "" = false ∧
    (fallback_messages.find? (fun p => p.1 == st.name) = none →
      run_with_fallback runF fallback_map st input_text = "No output available.") := by
  have hloop := fallback_loop_all_invalid runF input_text (pyDictGetList fallback_map st.name) st h
  refine ⟨?_, by decide, ?_⟩
  · unfold run_with_fallback
    rw [hloop]
  · intro hf
    unfold run_with_fallback
    rw [hloop]
    simp [generate_dummy_output, hf]

/-- Witness for claim C2: an unrecognized agent name whose two candidates
    both produce an invalid output. -/
theorem claim_C2_witness :
    run_with_fallback w2Run w2Map w2St "x" = "No output available." :=
  (claim_C2_exhaustion_degrades w2Run w2Map w2St "x" (by decide)).2.2 (by decide)

/-- Claim C3 (code behavior at the failing input): set_model does not
    rebind the loaded pipeline, so after selecting the backend
    "flan-t5-base" on an agent whose construction loaded the capability
    for "t5-small", run still invokes the construction-time capability:
    its output is unchanged and the model field is unchanged. This
    contradicts the claim that run delegates to the capability named by
    the most recently selected backend id. -/
theorem claim_C3_code_behavior :
    summarizer_run (set_model c3St "flan-t5-base") "text" = "SUMMARY-A:text" ∧
    summarizer_run (set_model c3St "flan-t5-base") "text" = summarizer_run c3St "text" ∧
    (set_model c3St "flan-t5-base").model = c3St.model :=
  ⟨rfl, rfl, rfl⟩

/-- Counterexample to claim C4: on an agent in the unbound state (model
    field is none), run returns the empty string as an ordinary return
    value to its caller; it does not fail, and no NoBackendSelected error
    exists anywhere in the code. -/
theorem claim_C4_counterexample :
    summarizer_run unboundSt "hello world" = "" := rfl

/-- Claim C4 as amended: for every agent instance in the unbound state
    and every input text, run returns the empty string to its immediate
    caller (the empty-output failure convention), raising nothing. -/
theorem claim_C4_amended_thm (st : AgentState) (input_text : String)
    (h : st.model = none) :
    summarizer_run st input_text = "" ∧ code_reviewer_run st input_text = "" := by
  simp [summarizer_run, code_reviewer_run, h]

/-- Witness for the amended claim C4 at a concrete unbound agent. -/
theorem claim_C4_amended_witness :
    summarizer_run unboundSt "hi" = "" ∧ code_reviewer_run unboundSt "hi" = "" :=
  claim_C4_amended_thm unboundSt "hi" rfl

/-- Claim C5: is_valid_output returns false exactly when the string is
    empty, or shorter than 20 characters after trimming whitespace, or
    its lowercase form contains "error" or "failed"; in particular a
    20-character trimmed string with neither substring is valid, a
    19-character one is invalid, and a 100-character string containing
    "Error" is invalid. -/
theorem claim_C5_validator_characterization :
    (∀ s : String, is_valid_output s = false ↔
      (s.data = [] ∨ (pyStrip s.data).length < 20 ∨
        "error".data <:+: pyLower s.data ∨ "failed".data <:+: pyLower s.data)) ∧
    is_valid_output "abcdefghijabcdefghij" = true ∧
    is_valid_output "abcdefghijabcdefghi" = false ∧
    is_valid_output ("Error" ++ String.mk (List.replicate 95 'a')) = false := by
  refine ⟨fun s => ?_, by decide, by decide, by decide⟩
  unfold is_valid_output
  split_ifs with h1 h2
  · refine ⟨fun _ => ?_, fun _ => rfl⟩
    rcases h1 with h | h
    · exact Or.inl h
    · exact Or.inr (Or.inl h)
  · refine ⟨fun _ => ?_, fun _ => rfl⟩
    rcases h2 with h | h
    · exact Or.inr (Or.inr (Or.inl h))
    · exact Or.inr (Or.inr (Or.inr h))
  · refine ⟨fun ht => absurd ht (by simp), fun hr => ?_⟩
    rcases hr with h | h | h | h
    · exact absurd (Or.inl h) h1
    · exact absurd (Or.inr h) h1
    · exact absurd (Or.inl h) h2
    · exact absurd (Or.inr h) h2

/-- Claim C6: on a bound agent whose backend capability raises on every
    prompt, run returns the empty string — the failure does not propagate
    past the agent — for both SummarizerAgent and CodeReviewerAgent. -/
theorem claim_C6_backend_failure_absorbed (st : AgentState) (f : Capability)
    (err : String → String) (input_text : String)
    (hm : st.model = some f)
    (hf : ∀ p, f p = Except.error (err p)) :
    summarizer_run st input_text = "" ∧ code_reviewer_run st input_text = "" := by
  simp [summarizer_run, code_reviewer_run, hm, hf]

/-- Witness for claim C6 at a concrete always-raising capability. -/
theorem claim_C6_witness :
    summarizer_run w6St "hello" = "" ∧ code_reviewer_run w6St "hello" = "" :=
  claim_C6_backend_failure_absorbed w6St failCap (fun _ => "boom") "hello" rfl (fun _ => rfl)

/-- Claim C7: run_with_fallback is a total function of its inputs: for
    every run function, fallback table, agent state and input text it
    returns either a validator-accepted output of one of the configured
    candidates, or the degradation generator string — never anything
    else, and (being a total Lean function mirroring code whose exception
    paths are all absorbed) never a failure. -/
theorem claim_C7_total_no_failure (runF : AgentState → String → String)
    (fallback_map : List (String × List String)) (st : AgentState)
    (input_text : String) :
    (∃ m ∈ pyDictGetList fallback_map st.name,
      run_with_fallback runF fallback_map st input_text = runF (set_model st m) input_text ∧
      is_valid_output (run_with_fallback runF fallback_map st input_text) = true) ∨
    run_with_fallback runF fallback_map st input_text =
      generate_dummy_output st.name input_text := by
  rcases fallback_loop_spec runF input_text (pyDictGetList fallback_map st.name) st with
    ⟨m, hm, heq, hval⟩ | hnone
  · left
    have hres : run_with_fallback runF fallback_map st input_text =
        runF (set_model st m) input_text := by
      unfold run_with_fallback
      rw [heq]
    exact ⟨m, hm, hres, by rw [hres]; exact hval⟩
  · right
    unfold run_with_fallback
    rw [hnone]

/-- Counterexample to claim C8: with a fallback-table entry listing the
    backend "t5-small" twice and a run function whose output never
    validates, a single run_with_fallback call invokes "t5-small" twice. -/
theorem claim_C8_counterexample :
    run_with_fallback_trace w8dRun w8dMap w8dSt "x" = ["t5-small", "t5-small"] ∧
    (run_with_fallback_trace w8dRun w8dMap w8dSt "x").count "t5-small" = 2 := by
  decide

/-- Claim C8 as amended: within a single run_with_fallback call the
    invocation trace is a prefix of the fallback-table entry (candidates
    are invoked strictly in priority order, each entry position at most
    once); when the entry lists no backend twice, no backend is invoked
    more than once. -/
theorem claim_C8_amended_thm (runF : AgentState → String → String)
    (fallback_map : List (String × List String)) (st : AgentState)
    (input_text : String) :
    run_with_fallback_trace runF fallback_map st input_text <+:
      pyDictGetList fallback_map st.name ∧
    ((pyDictGetList fallback_map st.name).Nodup →
      ∀ b, (run_with_fallback_trace runF fallback_map st input_text).count b ≤ 1) := by
  have hp : run_with_fallback_trace runF fallback_map st input_text <+:
      pyDictGetList fallback_map st.name :=
    fallback_loop_trace_pf runF input_text (pyDictGetList fallback_map st.name) st
  refine ⟨hp, fun hnd b => ?_⟩
  exact le_trans (hp.sublist.count_le b) (List.nodup_iff_count_le_one.mp hnd b)

/-- Witness for the amended claim C8 at a concrete duplicate-free table
    entry. -/
theorem claim_C8_amended_witness :
    run_with_fallback_trace w8Run w8Map w8St "x" <+: pyDictGetList w8Map w8St.name ∧
    (run_with_fallback_trace w8Run w8Map w8St "x").count "flan-t5-base" ≤ 1 :=
  ⟨(claim_C8_amended_thm w8Run w8Map w8St "x").1,
    (claim_C8_amended_thm w8Run w8Map w8St "x").2 (by decide) "flan-t5-base"⟩

/-- Claim C9: when the planner model is loaded and its invocation on the
    built prompt succeeds with raw text r, suggest_chain returns the
    goal, the list obtained by splitting r on the literal separator ", "
    (with no validation of the names), and the raw text r itself; in
    particular "SummarizerAgent, FollowUpAgent" splits to
    ["SummarizerAgent", "FollowUpAgent"]. -/
theorem claim_C9_planner_parses (p : ChainPlanner) (m : Capability)
    (goal r : String)
    (hm : p.model = some m)
    (hr : m (planner_prompt goal) = Except.ok r) :
    suggest_chain p goal = PlanResult.ok goal (py_split_comma_space r) r ∧
    py_split_comma_space "SummarizerAgent, FollowUpAgent" =
      ["SummarizerAgent", "FollowUpAgent"] := by
  refine ⟨?_, by decide⟩
  simp [suggest_chain, hm, hr]

/-- Witness for claim C9 at a concrete loaded planner. -/
theorem claim_C9_witness :
    suggest_chain w9P "draft a report" =
      PlanResult.ok "draft a report" ["SummarizerAgent", "FollowUpAgent"]
        "SummarizerAgent, FollowUpAgent" :=
  (claim_C9_planner_parses w9P planCap "draft a report"
    "SummarizerAgent, FollowUpAgent" rfl rfl).1.trans (by decide)

/-- Claim C10: set_model changes only the model_name field — the loaded
    model field and the class name are unchanged — and therefore the
    output of run (SummarizerAgent and CodeReviewerAgent alike) after
    set_model equals its output before. -/
theorem claim_C10_set_model_frame (st : AgentState) (b : String)
    (input_text : String) :
    (set_model st b).model = st.model ∧
    (set_model st b).name = st.name ∧
    (set_model st b).model_name = some b ∧
    summarizer_run (set_model st b) input_text = summarizer_run st input_text ∧
    code_reviewer_run (set_model st b) input_text = code_reviewer_run st input_text :=
  ⟨rfl, rfl, rfl, rfl, rfl⟩

end AutoPromptX
